import Mathlib

/-!
# Verification of the Airtable → Google Sheets sync core

Shallow embedding of `src/setter-school-sync.py`: the value normalizer
(`normalize`), schema header resolution (`get_headers_from_schema` plus the
fallback in `main`), the Payment Plan row expander
(`filter_payment_plan_records`), and the per-table grid assembly from `main`.

Modelling conventions:
* JSON-like Airtable field values are the inductive `Value` (null, boolean,
  integer, string, list, object).  Numbers are modelled as integers; float
  formatting is not exercised by any property below.
* Python dicts are association lists with unique keys in insertion order;
  `dict.get` is `dictGet`.
* Python string comparison (`<=`) is code-point lexicographic (`strLe`).
* A Python `TypeError` (raised when the code compares a truthy non-string
  due date against today's date string) is modelled by `Option`: `none`
  means the run raised and produced nothing.
* `date.today().isoformat()` is passed in explicitly as the `today` string.
-/

namespace SetterSync

/-- JSON-like field value as delivered by the Airtable client. -/
inductive Value where
  | null : Value
  | bool (b : Bool) : Value
  | int (n : Int) : Value
  | str (s : String) : Value
  | list (items : List Value) : Value
  | obj (entries : List (String × Value)) : Value

/-- Models Python `repr` on a string: single-quoted with backslash escapes
(further `\xNN`/`\uNNNN` escaping of exotic characters is abstracted, no
property below depends on it). -/
def pyReprStr (s : String) : String :=
  "\x27" ++ String.join (s.data.map (fun c =>
    if c = '\x27' then "\\\x27"
    else if c = '\\' then "\\\\"
    else if c = '\n' then "\\n"
    else if c = '\t' then "\\t"
    else if c = '\r' then "\\r"
    else String.singleton c)) ++ "\x27"

mutual

/-- Models Python `str(v)` on the value shapes of this data model:
`None ↦ "None"`, booleans `↦ "True"/"False"`, integers in decimal, strings
verbatim, lists and dicts via their `repr`. -/
def pyStr : Value → String
  | .null => "None"
  | .bool true => "True"
  | .bool false => "False"
  | .int n => toString n
  | .str s => s
  | .list vs => "[" ++ pyReprList vs ++ "]"
  | .obj d => "\x7b" ++ pyReprObj d ++ "\x7d"

/-- Models Python `repr(v)` (reached by `str` on nested containers). -/
def pyRepr : Value → String
  | .null => "None"
  | .bool true => "True"
  | .bool false => "False"
  | .int n => toString n
  | .str s => pyReprStr s
  | .list vs => "[" ++ pyReprList vs ++ "]"
  | .obj d => "\x7b" ++ pyReprObj d ++ "\x7d"

/-- Comma-separated `repr`s of list elements. -/
def pyReprList : List Value → String
  | [] => ""
  | [v] => pyRepr v
  | v :: rest => pyRepr v ++ ", " ++ pyReprList rest

/-- Comma-separated `repr(k): repr(v)` pairs of dict entries. -/
def pyReprObj : List (String × Value) → String
  | [] => ""
  | [(k, v)] => pyReprStr k ++ ": " ++ pyRepr v
  | (k, v) :: rest => pyReprStr k ++ ": " ++ pyRepr v ++ ", " ++ pyReprObj rest

end

/-- Models the string escaping of Python `json.dumps` (double-quoted;
`\uNNNN` escaping of exotic characters is abstracted, no property below
depends on it). -/
def jsonDumpStr (s : String) : String :=
  "\"" ++ String.join (s.data.map (fun c =>
    if c = '"' then "\\\""
    else if c = '\\' then "\\\\"
    else if c = '\n' then "\\n"
    else if c = '\t' then "\\t"
    else if c = '\r' then "\\r"
    else String.singleton c)) ++ "\""

mutual

/-- Models Python `json.dumps(v)` with its default separators
(`", "` between items, `": "` between key and value). -/
def json_dumps : Value → String
  | .null => "null"
  | .bool true => "true"
  | .bool false => "false"
  | .int n => toString n
  | .str s => jsonDumpStr s
  | .list vs => "[" ++ jsonDumpsList vs ++ "]"
  | .obj d => "\x7b" ++ jsonDumpsObj d ++ "\x7d"

/-- Serialized list elements joined by `", "`. -/
def jsonDumpsList : List Value → String
  | [] => ""
  | [v] => json_dumps v
  | v :: rest => json_dumps v ++ ", " ++ jsonDumpsList rest

/-- Serialized `"key": value` pairs joined by `", "`. -/
def jsonDumpsObj : List (String × Value) → String
  | [] => ""
  | [(k, v)] => jsonDumpStr k ++ ": " ++ json_dumps v
  | (k, v) :: rest => jsonDumpStr k ++ ": " ++ json_dumps v ++ ", " ++ jsonDumpsObj rest

end

/-- Models Python `d.get(k, default)` on a dict. -/
def dictGet (d : List (String × Value)) (k : String) (dflt : Value) : Value :=
  (d.lookup k).getD dflt

/-- Display string of one list element inside `normalize`
(source lines 45–57): a dict is rendered by priority
`name` → `url` → `id` → `json.dumps`, anything else by `str`. -/
def elemStr (v : Value) : String :=
  match v with
  | .obj d =>
    match d.lookup "name" with
    | some nv => pyStr nv
    | none =>
      match d.lookup "url" with
      | some uv => pyStr uv
      | none =>
        match d.lookup "id" with
        | some iv => pyStr iv
        | none => json_dumps (.obj d)
  | v => pyStr v

/-- `normalize` from source lines 38–67: convert an Airtable value into a
string safe for Sheets.  `None ↦ ""`; a list maps each element through
`elemStr` and joins with `", "`; a top-level dict is rendered by priority
`name` → `url` → `json.dumps` (no `id` step); scalars via `str`. -/
def normalize (value : Value) : String :=
  match value with
  | .null => ""
  | .list vs => String.intercalate ", " (vs.map elemStr)
  | .obj d =>
    match d.lookup "name" with
    | some nv => pyStr nv
    | none =>
      match d.lookup "url" with
      | some uv => pyStr uv
      | none => json_dumps (.obj d)
  | v => pyStr v


/-- Python truthiness (`bool(v)`) on the value shapes of this data model:
`None`, `False`, `0`, `""`, `[]` and an empty dict are falsy, everything
else is truthy. -/
def truthy : Value → Bool
  | .null => false
  | .bool b => b
  | .int n => n != 0
  | .str s => s != ""
  | .list vs => !vs.isEmpty
  | .obj d => !d.isEmpty

/-- Python `<=` on two strings: code-point lexicographic comparison. -/
def charListLe : List Char → List Char → Bool
  | [], _ => true
  | _ :: _, [] => false
  | a :: as, b :: bs =>
    if a < b then true
    else if b < a then false
    else charListLe as bs

/-- Python `s <= t` for strings. -/
def strLe (s t : String) : Bool :=
  charListLe s.data t.data

/-- One fetched Airtable record, reduced to its `fields` sub-mapping:
`r.get("fields", {})` in the source yields the empty dict when the key is
absent, represented here by `fields = []`. -/
structure AirtableRecord where
  fields : List (String × Value)

/-- One row built by `filter_payment_plan_records` (source lines 110–121 and
the two analogous blocks): the intermediate `row_data` dict is keyed
exactly by the headers, each entry depending only on its header, so the
final `[normalize(row_data.get(h)) for h in headers]` collapses to a direct
map over the headers. -/
def buildRow (headers : List String) (label : String) (pdate pamount : Value)
    (fields : List (String × Value)) : List String :=
  headers.map fun h =>
    normalize (if h = "Payment Type" then Value.str label
      else if h = "Payment Date" then pdate
      else if h = "Payment Amount" then pamount
      else dictGet fields h (Value.str ""))

/-- One installment-slot check of `filter_payment_plan_records`
(source lines 106–121 for the 2nd slot; the 3rd and 4th are identical up to
field names).  The Python condition
`payment_date and payment_amount and payment_date <= today` short-circuits:
the `<=` comparison is reached only when both values are truthy, and raises
`TypeError` (here `none`) when the date value is then not a string. -/
def checkSlot (fields : List (String × Value)) (headers : List String)
    (today : String) (dateKey amtKey label : String) :
    Option (List (List String)) :=
  let pdate := dictGet fields dateKey (Value.str "")
  let pamt := dictGet fields amtKey (Value.str "")
  if truthy pdate && truthy pamt then
    match pdate with
    | .str s =>
      if strLe s today then
        some [buildRow headers label pdate pamt fields]
      else
        some []
    | _ => none
  else
    some []

/-- The rows one record contributes in `filter_payment_plan_records`
(source lines 102–157): the three slots checked in order 2nd, 3rd, 4th,
their emitted rows concatenated; a `TypeError` (`none`) aborts the run. -/
def recordRows (fields : List (String × Value)) (headers : List String)
    (today : String) : Option (List (List String)) :=
  match checkSlot fields headers today "Date of 2nd Payment" "Amount Due For 2nd Payment" "2nd Payment" with
  | none => none
  | some r2 =>
    match checkSlot fields headers today "Date of 3rd Payment" "Amount Due For 3rd Payment" "3rd Payment" with
    | none => none
    | some r3 =>
      match checkSlot fields headers today "Date of 4th Payment" "Amount Due For 4th Payment" "4th Payment" with
      | none => none
      | some r4 => some (r2 ++ r3 ++ r4)

/-- `filter_payment_plan_records` from source lines 94–159, with
`date.today().isoformat()` passed in as `today`.  Records are processed in
order, each contributing its `recordRows`; an uncaught `TypeError` (`none`)
discards everything. -/
def filter_payment_plan_records :
    List AirtableRecord → List String → String → Option (List (List String))
  | [], _, _ => some []
  | r :: rest, headers, today =>
    match recordRows r.fields headers today with
    | some rows =>
      match filter_payment_plan_records rest headers today with
      | some more => some (rows ++ more)
      | none => none
    | none => none

/-- Normal-table row assembly from source lines 214–217:
`[normalize(fields.get(h)) for h in headers]` for each record, in fetch
order (`fields.get(h)` has no default, so an absent field is `None`). -/
def assembleRows (records : List AirtableRecord) (headers : List String) :
    List (List String) :=
  records.map fun r => headers.map fun h => normalize (dictGet r.fields h Value.null)

/-- One field of an Airtable table schema (only its name is used). -/
structure FieldSchema where
  name : String

/-- One table of the base schema: id, name and declared fields in order. -/
structure TableSchema where
  id : String
  name : String
  fields : List FieldSchema

/-- `get_headers_from_schema` from source lines 70–80, with the fetched
base schema passed in as the list of its tables: find the first table
matching by name or id and return its field names in schema order, or
`None` when no table matches. -/
def get_headers_from_schema (tables : List TableSchema)
    (table_name_or_id : String) : Option (List String) :=
  match tables.find? (fun t => t.name = table_name_or_id || t.id = table_name_or_id) with
  | none => none
  | some t => some (t.fields.map (·.name))

/-- The fallback header computation from source lines 200–204: the set
union of the field keys of every fetched record, sorted ascending.  The
Python `set` plus `sorted` is modelled as deduplication followed by an
insertion sort under the lexicographic order on strings. -/
def fallbackHeaders (records : List AirtableRecord) : List String :=
  List.insertionSort (· ≤ ·)
    ((records.map (fun r => r.fields.map Prod.fst)).flatten.dedup)

/-- The header resolution of source lines 197–204: schema headers when
available, otherwise the fallback.  Python's `if not headers:` treats both
`None` and the empty list as missing. -/
def resolveHeaders (tables : List TableSchema) (table_name_or_id : String)
    (records : List AirtableRecord) : List String :=
  match get_headers_from_schema tables table_name_or_id with
  | none => fallbackHeaders records
  | some hs => if hs.isEmpty then fallbackHeaders records else hs

/-- The hardcoded header list for the Payment Plan table (source line 209). -/
def customHeaders : List String :=
  ["Client Name", "Client Email", "Payment Type", "Payment Date", "Payment Amount"]

/-- Outcome of processing one table in `main`'s loop: skipped for lack of
records, a grid handed to the sheet writer, or an uncaught exception. -/
inductive SyncOutcome where
  | skipped : SyncOutcome
  | written (headers : List String) (rows : List (List String)) : SyncOutcome
  | raised : SyncOutcome
deriving DecidableEq

/-- The pure per-table logic of `main`'s loop (source lines 185–219):
skip when no records were fetched; resolve headers; for the
`"Payment Plan"` table discard them in favour of `customHeaders` and run
the row expander, otherwise assemble rows normally; the grid handed to the
sheet writer is the headers plus the data rows. -/
def processTable (table_name_or_id : String) (tables : List TableSchema)
    (records : List AirtableRecord) (today : String) : SyncOutcome :=
  if records.isEmpty then
    .skipped
  else
    let headers := resolveHeaders tables table_name_or_id records
    if table_name_or_id = "Payment Plan" then
      match filter_payment_plan_records records customHeaders today with
      | some data_rows => .written customHeaders data_rows
      | none => .raised
    else
      .written headers (assembleRows records headers)

/-- The three installment slots of the row expander, in source order:
(date field, amount field, slot label). -/
def paymentSlots : List (String × String × String) :=
  [("Date of 2nd Payment", "Amount Due For 2nd Payment", "2nd Payment"),
   ("Date of 3rd Payment", "Amount Due For 3rd Payment", "3rd Payment"),
   ("Date of 4th Payment", "Amount Due For 4th Payment", "4th Payment")]

/-! ## Claim-side definitions (written from the spec's words, for
comparison against the source-derived functions above) -/

/-- The spec's "non-empty/non-null" presence test on a field value: the
value is not null and not an empty string, list or object.  In particular
the number `0` and `False` count as present under this reading. -/
def claimPresent : Value → Bool
  | .null => false
  | .str s => s != ""
  | .list vs => !vs.isEmpty
  | .obj d => !d.isEmpty
  | .bool _ => true
  | .int _ => true

/-- The spec's display rule for a nested object inside a list: stringified
`name` field, else `url`, else `id`, else a JSON serialization of the
whole object. -/
def specObjElemDisplay (d : List (String × Value)) : String :=
  match d.lookup "name" with
  | some nv => pyStr nv
  | none =>
    match d.lookup "url" with
    | some uv => pyStr uv
    | none =>
      match d.lookup "id" with
      | some iv => pyStr iv
      | none => json_dumps (.obj d)

/-- The spec's display rule for a nested object at top level: `name`, else
`url`, else the JSON serialization — with no `id` fallback. -/
def specObjTopDisplay (d : List (String × Value)) : String :=
  match d.lookup "name" with
  | some nv => pyStr nv
  | none =>
    match d.lookup "url" with
    | some uv => pyStr uv
    | none => json_dumps (.obj d)

/-- A scalar in the spec's sense: string, number or boolean. -/
def isScalar : Value → Bool
  | .str _ => true
  | .int _ => true
  | .bool _ => true
  | _ => false

/-! ## Concrete fixtures used by counterexamples and witnesses -/

/-- Fields of a Payment Plan record whose 2nd installment (due 2024-01-01,
amount 100) is payable by 2024-06-01; the 3rd and 4th slots are absent. -/
def wfields : List (String × Value) :=
  [("Date of 2nd Payment", Value.str "2024-01-01"),
   ("Amount Due For 2nd Payment", Value.int 100)]

/-- The record carrying `wfields`. -/
def wrec : AirtableRecord := ⟨wfields⟩

/-- The single row the expander emits for `wrec` under `customHeaders`. -/
def wrow : List String :=
  ["", "", "2nd Payment", "2024-01-01", "100"]

/-- Fields identical to `wfields` except the 2nd amount is the number 0. -/
def wfieldsZero : List (String × Value) :=
  [("Date of 2nd Payment", Value.str "2024-01-01"),
   ("Amount Due For 2nd Payment", Value.int 0)]


/-! ## Helper lemmas -/

theorem buildRow_length (headers : List String) (label : String) (pdate pamount : Value)
    (fields : List (String × Value)) :
    (buildRow headers label pdate pamount fields).length = headers.length := by
  simp [buildRow]

theorem buildRow_eq_map (headers : List String) (label : String) (pdate pamount : Value)
    (fields : List (String × Value)) :
    buildRow headers label pdate pamount fields =
      headers.map (fun h =>
        if h = "Payment Type" then label
        else if h = "Payment Date" then normalize pdate
        else if h = "Payment Amount" then normalize pamount
        else normalize (dictGet fields h (Value.str ""))) := by
  unfold buildRow
  apply List.map_congr_left
  intro h _
  by_cases h1 : h = "Payment Type" <;> by_cases h2 : h = "Payment Date" <;>
    by_cases h3 : h = "Payment Amount" <;> simp [h1, h2, h3, normalize, pyStr]

theorem checkSlot_eq_of_str (fields : List (String × Value)) (headers : List String)
    (today dateKey amtKey label s : String)
    (hd : dictGet fields dateKey (Value.str "") = Value.str s) :
    checkSlot fields headers today dateKey amtKey label =
      some (if truthy (Value.str s) && truthy (dictGet fields amtKey (Value.str "")) && strLe s today
        then [buildRow headers label (Value.str s) (dictGet fields amtKey (Value.str "")) fields]
        else []) := by
  simp only [checkSlot, hd]
  cases h1 : truthy (Value.str s) <;>
    cases h2 : truthy (dictGet fields amtKey (Value.str "")) <;>
      simp [h1, h2] <;> cases h3 : strLe s today <;> simp [h3]

theorem checkSlot_mem (fields : List (String × Value)) (headers : List String)
    (today dateKey amtKey label : String) (l : List (List String)) (row : List String)
    (h : checkSlot fields headers today dateKey amtKey label = some l) (hr : row ∈ l) :
    row = buildRow headers label (dictGet fields dateKey (Value.str ""))
      (dictGet fields amtKey (Value.str "")) fields := by
  simp only [checkSlot] at h
  split at h
  · split at h
    next s _ =>
      split at h
      · obtain rfl : [buildRow headers label (dictGet fields dateKey (Value.str ""))
            (dictGet fields amtKey (Value.str "")) fields] = l := by
          simpa using h
        simpa using hr
      · obtain rfl : ([] : List (List String)) = l := by simpa using h
        simp at hr
    next => exact absurd h (by simp)
  · obtain rfl : ([] : List (List String)) = l := by simpa using h
    simp at hr

theorem recordRows_mem (fields : List (String × Value)) (headers : List String)
    (today : String) (rows : List (List String)) (row : List String)
    (h : recordRows fields headers today = some rows) (hr : row ∈ rows) :
    ∃ dk ak label, (dk, ak, label) ∈ paymentSlots ∧
      row = buildRow headers label (dictGet fields dk (Value.str ""))
        (dictGet fields ak (Value.str "")) fields := by
  simp only [recordRows] at h
  cases h2 : checkSlot fields headers today "Date of 2nd Payment" "Amount Due For 2nd Payment" "2nd Payment" with
  | none => rw [h2] at h; exact absurd h (by simp)
  | some r2 =>
    rw [h2] at h
    cases h3 : checkSlot fields headers today "Date of 3rd Payment" "Amount Due For 3rd Payment" "3rd Payment" with
    | none => rw [h3] at h; exact absurd h (by simp)
    | some r3 =>
      rw [h3] at h
      cases h4 : checkSlot fields headers today "Date of 4th Payment" "Amount Due For 4th Payment" "4th Payment" with
      | none => rw [h4] at h; exact absurd h (by simp)
      | some r4 =>
        rw [h4] at h
        obtain rfl : r2 ++ r3 ++ r4 = rows := by simpa using h
        rcases List.mem_append.mp hr with hm | hm
        · rcases List.mem_append.mp hm with hm2 | hm3
          · exact ⟨_, _, _, by simp [paymentSlots],
              checkSlot_mem _ _ _ _ _ _ _ _ h2 hm2⟩
          · exact ⟨_, _, _, by simp [paymentSlots],
              checkSlot_mem _ _ _ _ _ _ _ _ h3 hm3⟩
        · exact ⟨_, _, _, by simp [paymentSlots],
            checkSlot_mem _ _ _ _ _ _ _ _ h4 hm⟩

theorem filter_mem (records : List AirtableRecord) (headers : List String) (today : String)
    (rows : List (List String)) (row : List String)
    (h : filter_payment_plan_records records headers today = some rows) (hr : row ∈ rows) :
    ∃ r ∈ records, ∃ dk ak label, (dk, ak, label) ∈ paymentSlots ∧
      row = buildRow headers label (dictGet r.fields dk (Value.str ""))
        (dictGet r.fields ak (Value.str "")) r.fields := by
  induction records generalizing rows with
  | nil =>
    obtain rfl : ([] : List (List String)) = rows := by
      simpa [filter_payment_plan_records] using h
    simp at hr
  | cons r rest ih =>
    simp only [filter_payment_plan_records] at h
    cases hrr : recordRows r.fields headers today with
    | none => rw [hrr] at h; exact absurd h (by simp)
    | some rrows =>
      rw [hrr] at h
      cases hrest : filter_payment_plan_records rest headers today with
      | none => rw [hrest] at h; exact absurd h (by simp)
      | some more =>
        rw [hrest] at h
        obtain rfl : rrows ++ more = rows := by simpa using h
        rcases List.mem_append.mp hr with hm | hm
        · obtain ⟨dk, ak, label, hslot, hrow⟩ := recordRows_mem _ _ _ _ _ hrr hm
          exact ⟨r, by simp, dk, ak, label, hslot, hrow⟩
        · obtain ⟨r2, hr2, dk, ak, label, hslot, hrow⟩ := ih more hrest hm
          exact ⟨r2, by simp [hr2], dk, ak, label, hslot, hrow⟩

theorem fallbackHeaders_sorted (records : List AirtableRecord) :
    (fallbackHeaders records).Sorted (· ≤ ·) :=
  List.sorted_insertionSort _ _

theorem fallbackHeaders_nodup (records : List AirtableRecord) :
    (fallbackHeaders records).Nodup :=
  (List.perm_insertionSort _ _).nodup_iff.mpr (List.nodup_dedup _)

theorem fallbackHeaders_mem (records : List AirtableRecord) (k : String) :
    k ∈ fallbackHeaders records ↔ ∃ r ∈ records, k ∈ r.fields.map Prod.fst := by
  unfold fallbackHeaders
  rw [List.mem_insertionSort _, List.mem_dedup, List.mem_flatten]
  constructor
  · rintro ⟨l, hl, hk⟩
    obtain ⟨r, hrmem, rfl⟩ := List.mem_map.mp hl
    exact ⟨r, hrmem, hk⟩
  · rintro ⟨r, hrmem, hk⟩
    exact ⟨r.fields.map Prod.fst, List.mem_map.mpr ⟨r, hrmem, rfl⟩, hk⟩

/-! ## Claim theorems -/

/-- C1 counterexample: both fields of the 2nd slot are non-empty and
non-null (the amount is the number 0) and the due date is lexicographically
≤ today, so the claim predicts one "2nd Payment" row — but the expander
emits none, because Python truthiness treats the number 0 as absent. -/
theorem C1_counterexample :
    claimPresent (Value.str "2024-01-01") = true ∧
    claimPresent (Value.int 0) = true ∧
    strLe "2024-01-01" "2024-06-01" = true ∧
    filter_payment_plan_records [⟨wfieldsZero⟩] customHeaders "2024-06-01" = some [] :=
  ⟨rfl, rfl, rfl, rfl⟩

/-- C1 (amended): for a Payment Plan record whose slot date fields hold
strings, the expander emits, per slot and in fixed order 2nd, 3rd, 4th, a
row if and only if the slot's date and amount are both truthy in the
Python sense and the date string is lexicographically ≤ today's date
string; hence each record contributes between 0 and 3 rows. -/
theorem C1_slotEmission (fields : List (String × Value)) (headers : List String)
    (today d2 d3 d4 : String)
    (h2 : dictGet fields "Date of 2nd Payment" (Value.str "") = Value.str d2)
    (h3 : dictGet fields "Date of 3rd Payment" (Value.str "") = Value.str d3)
    (h4 : dictGet fields "Date of 4th Payment" (Value.str "") = Value.str d4) :
    filter_payment_plan_records [⟨fields⟩] headers today =
      some ((if truthy (Value.str d2) && truthy (dictGet fields "Amount Due For 2nd Payment" (Value.str "")) && strLe d2 today
          then [buildRow headers "2nd Payment" (Value.str d2) (dictGet fields "Amount Due For 2nd Payment" (Value.str "")) fields]
          else [])
        ++ (if truthy (Value.str d3) && truthy (dictGet fields "Amount Due For 3rd Payment" (Value.str "")) && strLe d3 today
          then [buildRow headers "3rd Payment" (Value.str d3) (dictGet fields "Amount Due For 3rd Payment" (Value.str "")) fields]
          else [])
        ++ (if truthy (Value.str d4) && truthy (dictGet fields "Amount Due For 4th Payment" (Value.str "")) && strLe d4 today
          then [buildRow headers "4th Payment" (Value.str d4) (dictGet fields "Amount Due For 4th Payment" (Value.str "")) fields]
          else [])) := by
  simp only [filter_payment_plan_records, recordRows,
    checkSlot_eq_of_str fields headers today _ _ _ d2 h2,
    checkSlot_eq_of_str fields headers today _ _ _ d3 h3,
    checkSlot_eq_of_str fields headers today _ _ _ d4 h4,
    List.append_nil]

/-- C1 witness: a concrete record with a payable 2nd installment yields
exactly its one row. -/
theorem C1_slotEmission_witness :
    filter_payment_plan_records [⟨wfields⟩] customHeaders "2024-06-01" = some [wrow] := by
  have h := C1_slotEmission wfields customHeaders "2024-06-01" "2024-01-01" "" "" rfl rfl rfl
  rw [h]; rfl

/-- C2 counterexample: the schema lookup fails for table "EOD" while one
record was fetched, yet processing produces an output grid (headers from
the record-key fallback) instead of failing — no `SchemaResolutionError`
exists in the code. -/
theorem C2_counterexample :
    get_headers_from_schema [] "EOD" = none ∧
    ([⟨[("X", Value.str "1")]⟩] : List AirtableRecord) ≠ [] ∧
    processTable "EOD" [] [⟨[("X", Value.str "1")]⟩] "2024-06-01" =
      SyncOutcome.written ["X"] [["1"]] :=
  ⟨rfl, List.cons_ne_nil _ _, rfl⟩

/-- C2 (amended): when schema resolution fails for a normal table that has
fetched records, processing does not fail; it produces the output grid
with headers taken from the sorted union of record field keys. -/
theorem C2_fallbackGrid (name : String) (tables : List TableSchema)
    (records : List AirtableRecord) (today : String)
    (hne : records ≠ [])
    (hschema : get_headers_from_schema tables name = none)
    (hnorm : name ≠ "Payment Plan") :
    processTable name tables records today =
      SyncOutcome.written (fallbackHeaders records)
        (assembleRows records (fallbackHeaders records)) := by
  simp only [processTable, resolveHeaders, hschema]
  simp [hne, hnorm]

/-- C2 witness: the amended behaviour at a concrete schema-less table. -/
theorem C2_fallbackGrid_witness :
    processTable "EOD" [] [⟨[("X", Value.str "1")]⟩] "2024-06-01" =
      SyncOutcome.written (fallbackHeaders [⟨[("X", Value.str "1")]⟩])
        (assembleRows [⟨[("X", Value.str "1")]⟩] (fallbackHeaders [⟨[("X", Value.str "1")]⟩])) :=
  C2_fallbackGrid "EOD" [] [⟨[("X", Value.str "1")]⟩] "2024-06-01"
    (List.cons_ne_nil _ _) rfl (by decide)

/-- C3 counterexample: the schema lookup succeeds for table "EOD" (matched
by name, declaring zero fields), yet the resolved headers are the
record-key fallback `["X"]`, not the schema-declared `[]` — Python's
`if not headers:` treats the empty schema field list as missing. -/
theorem C3_counterexample :
    get_headers_from_schema [⟨"tblX", "EOD", []⟩] "EOD" = some [] ∧
    resolveHeaders [⟨"tblX", "EOD", []⟩] "EOD" [⟨[("X", Value.str "1")]⟩] = ["X"] ∧
    (["X"] : List String) ≠ ([] : List String) :=
  ⟨rfl, rfl, List.cons_ne_nil _ _⟩

/-- C3 (amended): when the schema lookup succeeds with a non-empty field
list, the resolved headers are exactly the schema-declared field names in
schema order, independent of the fetched records; when the lookup fails or
the matched table declares no fields, the resolved headers are the set
union of the field keys of every fetched record, sorted ascending
lexicographically (sorted, duplicate-free, containing exactly the keys
occurring in some record). -/
theorem C3_headerResolution :
    (∀ (tables : List TableSchema) (name : String) (records : List AirtableRecord)
        (hs : List String),
      get_headers_from_schema tables name = some hs → hs ≠ [] →
      resolveHeaders tables name records = hs) ∧
    (∀ (tables : List TableSchema) (name : String) (records : List AirtableRecord),
      (get_headers_from_schema tables name = none ∨
        get_headers_from_schema tables name = some []) →
      (resolveHeaders tables name records).Sorted (· ≤ ·) ∧
      (resolveHeaders tables name records).Nodup ∧
      ∀ k, k ∈ resolveHeaders tables name records ↔
        ∃ r ∈ records, k ∈ r.fields.map Prod.fst) := by
  constructor
  · intro tables name records hs h hne
    simp only [resolveHeaders, h]
    simp [hne]
  · intro tables name records h
    have hfb : resolveHeaders tables name records = fallbackHeaders records := by
      rcases h with h | h <;> simp [resolveHeaders, h]
    rw [hfb]
    exact ⟨fallbackHeaders_sorted records, fallbackHeaders_nodup records,
      fallbackHeaders_mem records⟩

/-- C3 witness: schema headers win when non-empty; a record key appears in
the fallback headers when the lookup fails. -/
theorem C3_headerResolution_witness :
    resolveHeaders [⟨"tbl1", "EOD", [⟨"A"⟩, ⟨"B"⟩]⟩] "EOD" [⟨[("Z", Value.int 1)]⟩] = ["A", "B"] ∧
    "X" ∈ resolveHeaders [] "EOD" [⟨[("X", Value.str "1")]⟩] := by
  constructor
  · exact C3_headerResolution.1 _ "EOD" _ ["A", "B"] rfl (List.cons_ne_nil _ _)
  · exact ((C3_headerResolution.2 [] "EOD" [⟨[("X", Value.str "1")]⟩] (Or.inl rfl)).2.2
      "X").mpr ⟨⟨[("X", Value.str "1")]⟩, by simp, by simp⟩

/-- C4 (confirmed): the normalizer's asymmetric priority for nested
objects — a dict inside a list displays as `name`, else `url`, else `id`,
else its JSON serialization, while a top-level dict displays as `name`,
else `url`, else the JSON serialization with no `id` fallback; in
particular an object carrying only `id` renders as `"rec1"` inside a list
but as its JSON serialization at top level. -/
theorem C4_objDisplayAsymmetry :
    (∀ d : List (String × Value), normalize (Value.list [Value.obj d]) = specObjElemDisplay d) ∧
    (∀ d : List (String × Value), normalize (Value.obj d) = specObjTopDisplay d) ∧
    normalize (Value.list [Value.obj [("id", Value.str "rec1")]]) = "rec1" ∧
    normalize (Value.obj [("id", Value.str "rec1")]) =
      json_dumps (Value.obj [("id", Value.str "rec1")]) :=
  ⟨fun _ => rfl, fun _ => rfl, rfl, rfl⟩

/-- C5 (confirmed): every row the Payment Plan expander emits maps each
output header to the slot label at `Payment Type`, the normalized slot due
date at `Payment Date`, the normalized slot amount at `Payment Amount`,
and the normalized value of the record's own field of that name everywhere
else — where an absent field defaults to the empty string
(`normalize (Value.str "") = ""`). -/
theorem C5_rowContents (records : List AirtableRecord) (headers : List String)
    (today : String) (rows : List (List String)) (row : List String)
    (h : filter_payment_plan_records records headers today = some rows)
    (hr : row ∈ rows) :
    normalize (Value.str "") = "" ∧
    ∃ r ∈ records, ∃ dk ak label, (dk, ak, label) ∈ paymentSlots ∧
      row = headers.map (fun hh =>
        if hh = "Payment Type" then label
        else if hh = "Payment Date" then normalize (dictGet r.fields dk (Value.str ""))
        else if hh = "Payment Amount" then normalize (dictGet r.fields ak (Value.str ""))
        else normalize (dictGet r.fields hh (Value.str ""))) := by
  refine ⟨rfl, ?_⟩
  obtain ⟨r, hrmem, dk, ak, label, hslot, hrow⟩ := filter_mem records headers today rows row h hr
  exact ⟨r, hrmem, dk, ak, label, hslot, by rw [hrow, buildRow_eq_map]⟩

/-- C5 witness: the concrete emitted row of `wrec` has the described
shape. -/
theorem C5_rowContents_witness :
    normalize (Value.str "") = "" ∧
    ∃ r ∈ [wrec], ∃ dk ak label, (dk, ak, label) ∈ paymentSlots ∧
      wrow = customHeaders.map (fun hh =>
        if hh = "Payment Type" then label
        else if hh = "Payment Date" then normalize (dictGet r.fields dk (Value.str ""))
        else if hh = "Payment Amount" then normalize (dictGet r.fields ak (Value.str ""))
        else normalize (dictGet r.fields hh (Value.str ""))) :=
  C5_rowContents [wrec] customHeaders "2024-06-01" [wrow] wrow rfl
    (List.mem_singleton.mpr rfl)

/-- C6 (confirmed): `normalize` maps null and the empty list to the empty
string, and any list of scalars to its elements stringified and joined
with `", "`, preserving list order. -/
theorem C6_scalarLists :
    normalize Value.null = "" ∧ normalize (Value.list []) = "" ∧
    ∀ vs : List Value, (∀ v ∈ vs, isScalar v = true) →
      normalize (Value.list vs) = String.intercalate ", " (vs.map pyStr) := by
  refine ⟨rfl, rfl, ?_⟩
  intro vs hvs
  show String.intercalate ", " (vs.map elemStr) = _
  congr 1
  apply List.map_congr_left
  intro v hv
  have hsv := hvs v hv
  cases v with
  | str s => rfl
  | int n => rfl
  | bool b => rfl
  | null => exact Bool.noConfusion hsv
  | list l => exact Bool.noConfusion hsv
  | obj d => exact Bool.noConfusion hsv

/-- C6 witness: a concrete three-element scalar list. -/
theorem C6_scalarLists_witness :
    normalize (Value.list [Value.str "a", Value.int 2, Value.bool true]) = "a, 2, True" := by
  have h := C6_scalarLists.2.2 [Value.str "a", Value.int 2, Value.bool true] (by decide)
  rw [h]; rfl

/-- C7 (confirmed): every row of an assembled grid has exactly as many
cells as there are headers — for any grid `main` hands to the sheet
writer, for any output of the Payment Plan row expander, and for any
output of the normal-table row assembler. -/
theorem C7_rowLengths :
    (∀ (name : String) (tables : List TableSchema) (records : List AirtableRecord)
        (today : String) (hs : List String) (rows : List (List String)),
      processTable name tables records today = SyncOutcome.written hs rows →
      ∀ row ∈ rows, row.length = hs.length) ∧
    (∀ (records : List AirtableRecord) (headers : List String) (today : String)
        (rows : List (List String)),
      filter_payment_plan_records records headers today = some rows →
      ∀ row ∈ rows, row.length = headers.length) ∧
    (∀ (records : List AirtableRecord) (headers : List String) (row : List String),
      row ∈ assembleRows records headers → row.length = headers.length) := by
  have hfilter : ∀ (records : List AirtableRecord) (headers : List String) (today : String)
      (rows : List (List String)),
      filter_payment_plan_records records headers today = some rows →
      ∀ row ∈ rows, row.length = headers.length := by
    intro records headers today rows h row hr
    obtain ⟨r, -, dk, ak, label, -, hrow⟩ := filter_mem records headers today rows row h hr
    rw [hrow]
    exact buildRow_length headers label _ _ r.fields
  have hassemble : ∀ (records : List AirtableRecord) (headers : List String)
      (row : List String),
      row ∈ assembleRows records headers → row.length = headers.length := by
    intro records headers row hr
    obtain ⟨r, -, rfl⟩ := List.mem_map.mp hr
    exact List.length_map _ _
  refine ⟨?_, hfilter, hassemble⟩
  intro name tables records today hs rows h row hr
  simp only [processTable] at h
  split at h
  · exact SyncOutcome.noConfusion h
  · split at h
    · cases hf : filter_payment_plan_records records customHeaders today with
      | none => rw [hf] at h; exact SyncOutcome.noConfusion h
      | some dr =>
        rw [hf] at h
        injection h with h1 h2
        subst h1; subst h2
        exact hfilter records customHeaders today _ hf row hr
    · injection h with h1 h2
      subst h1; subst h2
      exact hassemble records _ row hr

/-- C7 witness: concrete rows from the expander and from a written grid
both match their header counts. -/
theorem C7_rowLengths_witness :
    wrow.length = customHeaders.length ∧
    (["1"] : List String).length = (["X"] : List String).length :=
  ⟨C7_rowLengths.2.1 [wrec] customHeaders "2024-06-01" [wrow] rfl wrow
      (List.mem_singleton.mpr rfl),
    C7_rowLengths.1 "EOD" [] [⟨[("X", Value.str "1")]⟩] "2024-06-01" ["X"] [["1"]] rfl
      ["1"] (List.mem_singleton.mpr rfl)⟩

/-- C8 (confirmed): `normalize` is a total function over the variant value
shapes, returning a string for each — the empty string for null, the
string itself, decimal for integers, `str`-style booleans, the joined
element displays for lists — and degrades to the generic JSON
serialization for objects lacking the preferred keys (`name`/`url` at top
level, `name`/`url`/`id` inside a list). -/
theorem C8_normalizeTotal :
    normalize Value.null = "" ∧
    (∀ s, normalize (Value.str s) = s) ∧
    (∀ n : Int, normalize (Value.int n) = toString n) ∧
    (∀ b, normalize (Value.bool b) = pyStr (Value.bool b)) ∧
    (∀ vs, normalize (Value.list vs) = String.intercalate ", " (vs.map elemStr)) ∧
    (∀ d, d.lookup "name" = none → d.lookup "url" = none →
      normalize (Value.obj d) = json_dumps (Value.obj d)) ∧
    (∀ d, d.lookup "name" = none → d.lookup "url" = none → d.lookup "id" = none →
      elemStr (Value.obj d) = json_dumps (Value.obj d)) := by
  refine ⟨rfl, fun s => rfl, fun n => rfl, fun b => rfl, fun vs => rfl, ?_, ?_⟩
  · intro d h1 h2
    simp [normalize, h1, h2]
  · intro d h1 h2 h3
    simp [elemStr, h1, h2, h3]

/-- C8 witness: an object with none of the preferred keys degrades to its
JSON serialization, at top level and as a list element. -/
theorem C8_normalizeTotal_witness :
    normalize (Value.obj [("x", Value.int 1)]) = json_dumps (Value.obj [("x", Value.int 1)]) ∧
    elemStr (Value.obj [("x", Value.int 1)]) = json_dumps (Value.obj [("x", Value.int 1)]) :=
  ⟨C8_normalizeTotal.2.2.2.2.2.1 [("x", Value.int 1)] rfl rfl,
    C8_normalizeTotal.2.2.2.2.2.2 [("x", Value.int 1)] rfl rfl rfl⟩

/-- C9 (confirmed): an installment slot whose amount is falsy but non-null
— the number 0, the empty string, or the empty list — contributes no row
even when its date is a non-empty string on or before today, because the
presence checks test Python truthiness. -/
theorem C9_falsyAmounts (fields : List (String × Value)) (headers : List String)
    (today s dk ak label : String)
    (hslot : (dk, ak, label) ∈ paymentSlots)
    (hd : dictGet fields dk (Value.str "") = Value.str s)
    (hs : s ≠ "")
    (hle : strLe s today = true)
    (ha : dictGet fields ak (Value.str "") = Value.int 0 ∨
      dictGet fields ak (Value.str "") = Value.str "" ∨
      dictGet fields ak (Value.str "") = Value.list []) :
    checkSlot fields headers today dk ak label = some [] := by
  rw [checkSlot_eq_of_str fields headers today dk ak label s hd]
  have hfalse : truthy (dictGet fields ak (Value.str "")) = false := by
    rcases ha with ha | ha | ha <;> rw [ha] <;> rfl
  simp [hfalse]

/-- C9 witness: the 2nd slot with amount 0 and a past due date emits
nothing. -/
theorem C9_falsyAmounts_witness :
    checkSlot wfieldsZero customHeaders "2024-06-01"
      "Date of 2nd Payment" "Amount Due For 2nd Payment" "2nd Payment" = some [] :=
  C9_falsyAmounts wfieldsZero customHeaders "2024-06-01" "2024-01-01"
    "Date of 2nd Payment" "Amount Due For 2nd Payment" "2nd Payment"
    (by simp [paymentSlots]) rfl (by decide) rfl (Or.inl rfl)

/-- C10 (confirmed): whenever the Payment Plan table produces a written
grid, its header row is exactly the fixed five custom headers, regardless
of the base schema and of the fetched records. -/
theorem C10_paymentPlanHeaders (tables : List TableSchema)
    (records : List AirtableRecord) (today : String)
    (hs : List String) (rows : List (List String))
    (h : processTable "Payment Plan" tables records today = SyncOutcome.written hs rows) :
    hs = customHeaders := by
  simp only [processTable] at h
  split at h
  · exact SyncOutcome.noConfusion h
  · rw [if_pos trivial] at h
    cases hf : filter_payment_plan_records records customHeaders today with
    | none => rw [hf] at h; exact SyncOutcome.noConfusion h
    | some dr =>
      rw [hf] at h
      injection h with h1 _
      exact h1.symm

/-- C10 witness: a concrete Payment Plan run writes exactly the five
custom headers. -/
theorem C10_paymentPlanHeaders_witness :
    (["Client Name", "Client Email", "Payment Type", "Payment Date", "Payment Amount"] :
      List String) = customHeaders :=
  C10_paymentPlanHeaders [] [wrec] "2024-06-01"
    ["Client Name", "Client Email", "Payment Type", "Payment Date", "Payment Amount"]
    [wrow] rfl

end SetterSync
